import Mathlib

/-!
A verification development for the Android action kernel (`kernel.py`).

The kernel is a perceive → reason → act agent loop over a fixed catalog of
device, host, and control actions.  We embed the pure control structure of
the Python source shallowly in Lean: Python strings become `String` (or
`List Char` where we reason character by character), the effectful
collaborators (the adb transport, the filesystem, the subprocess layer, the
LLM, perception) become explicit oracle parameters, and a Python call that
may raise is modelled as `Except String α`, where `Except.error msg` stands
for a raised exception whose `str` is `msg`.
-/

namespace Kernel

/-! ## Characters used by the adb text escaper

Some characters are awkward to write as literals, so we name them by code
point: 32 is the space, 37 is the percent sign, 39 is the single quote,
34 is the double quote, 92 is the backslash, 96 is the backtick. -/

def spaceChar : Char := Char.ofNat 32

def percentChar : Char := Char.ofNat 37

def singleQuoteChar : Char := Char.ofNat 39

def doubleQuoteChar : Char := Char.ofNat 34

def backslashChar : Char := Char.ofNat 92

def backtickChar : Char := Char.ofNat 96

/-- Python's `str.replace(pat, rep)` for a single-character pattern `pat`:
every occurrence of `pat` is replaced by `rep`, scanning left to right. -/
def replaceChar (pat : Char) (rep : List Char) (s : List Char) : List Char :=
  s.flatMap (fun c => if c = pat then rep else [c])

/-- `escape_text_for_adb` from `kernel.py` (lines 20–33), on the character
list of the input string.  The twelve `str.replace` calls of the source are
applied in source order, innermost first: space → `%s`, then a backslash is
put before each of `&`, `<`, `>`, `|`, `;`, `$`, backtick, `(`, `)`, single
quote, double quote. -/
def escape_text_for_adb (s : List Char) : List Char :=
  replaceChar doubleQuoteChar [backslashChar, doubleQuoteChar]
    (replaceChar singleQuoteChar [backslashChar, singleQuoteChar]
      (replaceChar ')' [backslashChar, ')']
        (replaceChar '(' [backslashChar, '(']
          (replaceChar backtickChar [backslashChar, backtickChar]
            (replaceChar '$' [backslashChar, '$']
              (replaceChar ';' [backslashChar, ';']
                (replaceChar '|' [backslashChar, '|']
                  (replaceChar '>' [backslashChar, '>']
                    (replaceChar '<' [backslashChar, '<']
                      (replaceChar '&' [backslashChar, '&']
                        (replaceChar spaceChar [percentChar, 's'] s)))))))))))

/-- The shell metacharacters the escaper backslash-escapes (every special
character except the space, which is substituted by `%s` instead). -/
def metaChars : List Char :=
  ['&', '<', '>', '|', ';', '$', backtickChar, '(', ')',
   singleQuoteChar, doubleQuoteChar]

/-- The per-character action of the escaper: space becomes `%s`, a
metacharacter gets a backslash put before it, anything else is kept. -/
def escChar (c : Char) : List Char :=
  if c = spaceChar then [percentChar, 's']
  else if metaChars.contains c then [backslashChar, c]
  else [c]

/-- A character is "ordinary" for the escaped output: not a metacharacter
and not a space. -/
def okChar (c : Char) : Bool :=
  !(metaChars.contains c) && !(c == spaceChar)

/-- `noUnescaped out = true` says the character list `out` contains no
unescaped occurrence of a metacharacter or space: scanning left to right, a
backslash escapes the character right after it, and every character read
outside such a pair is ordinary. -/
def noUnescaped : List Char → Bool
  | [] => true
  | [c] => if c == backslashChar then true else okChar c
  | c :: d :: rest =>
      if c == backslashChar then noUnescaped rest
      else okChar c && noUnescaped (d :: rest)

/-! ## Tool schemas and the registry

`FUNCTIONS` (kernel.py lines 145–302) is the literal list of tool schemas
shown to the reasoning service, and `FUNCTION_MAP` (lines 304–315) the
name-to-callable dispatch table.  We transcribe both.  A JSON schema object
that carries no `"required"` key is modelled with `required = none`; a
parameter without a `"default"` key has `default = none`. -/

/-- A JSON default value occurring in the schemas: a number or a string. -/
inductive JsonDefault
  | num (v : ℚ)
  | str (s : String)
deriving DecidableEq, Repr

/-- One entry of a schema's `"properties"` object. -/
structure ParamSpec where
  name : String
  type : String
  description : String
  default : Option JsonDefault := none
deriving DecidableEq, Repr

/-- One element of the `FUNCTIONS` list: the `"function"` object of a tool
schema. -/
structure ToolSchema where
  name : String
  description : String
  properties : List ParamSpec
  required : Option (List String) := none
deriving DecidableEq, Repr

/-- The `FUNCTIONS` list of kernel.py, transcribed entry by entry. -/
def FUNCTIONS : List ToolSchema :=
  [ { name := "android_tap",
      description := "Tap on the Android screen at the given coordinates",
      properties :=
        [ { name := "x", type := "integer", description := "X coordinate" },
          { name := "y", type := "integer", description := "Y coordinate" } ],
      required := some ["x", "y"] },
    { name := "android_type",
      description := "Type text into the Android device. Optionally provide coordinates to focus a text field first.",
      properties :=
        [ { name := "text", type := "string", description := "Text to type" },
          { name := "x", type := "integer",
            description := "X coordinate of text field (optional)" },
          { name := "y", type := "integer",
            description := "Y coordinate of text field (optional)" } ],
      required := some ["text"] },
    { name := "android_home",
      description := "Navigate to the Android home screen",
      properties := [] },
    { name := "android_back",
      description := "Press the back button on Android",
      properties := [] },
    { name := "android_wait",
      description := "Wait for a specified number of seconds",
      properties :=
        [ { name := "seconds", type := "number", description := "Seconds to wait",
            default := some (JsonDefault.num 2) } ] },
    { name := "host_read_file",
      description := "Read a file from the host machine",
      properties :=
        [ { name := "filepath", type := "string",
            description := "Path to the file to read" } ],
      required := some ["filepath"] },
    { name := "host_write_file",
      description := "Write content to a file on the host machine",
      properties :=
        [ { name := "filepath", type := "string",
            description := "Path to the file to write" },
          { name := "content", type := "string", description := "Content to write" } ],
      required := some ["filepath", "content"] },
    { name := "host_run_command",
      description := "Run a shell command on the host machine",
      properties :=
        [ { name := "command", type := "string",
            description := "Shell command to execute" } ],
      required := some ["command"] },
    { name := "host_list_directory",
      description := "List contents of a directory on the host machine",
      properties :=
        [ { name := "directory", type := "string",
            description := "Directory path (default: current directory)",
            default := some (JsonDefault.str ".") } ] },
    { name := "task_complete",
      description := "Call this when the task is complete. Provide a summary of what was accomplished.",
      properties :=
        [ { name := "summary", type := "string",
            description := "Summary of what was accomplished" } ],
      required := some ["summary"] } ]

/-- The ten callables of the catalog, as a closed enumeration (a Python
function object is identified by which `def` it is). -/
inductive PyFun
  | android_tap
  | android_type
  | android_home
  | android_back
  | android_wait
  | host_read_file
  | host_write_file
  | host_run_command
  | host_list_directory
  | task_complete
deriving DecidableEq, Repr

/-- The `FUNCTION_MAP` dict of kernel.py: tool name to bound callable,
in source order. -/
def FUNCTION_MAP : List (String × PyFun) :=
  [ ("android_tap", PyFun.android_tap),
    ("android_type", PyFun.android_type),
    ("android_home", PyFun.android_home),
    ("android_back", PyFun.android_back),
    ("android_wait", PyFun.android_wait),
    ("host_read_file", PyFun.host_read_file),
    ("host_write_file", PyFun.host_write_file),
    ("host_run_command", PyFun.host_run_command),
    ("host_list_directory", PyFun.host_list_directory),
    ("task_complete", PyFun.task_complete) ]

/-- A parameter of a Python `def` in the catalog: its name, whether it has
a default value in the signature, and whether its annotation is
`Optional[...]`. -/
structure PyParam where
  name : String
  hasDefault : Bool
  isOptional : Bool
deriving DecidableEq, Repr

/-- The parameter list of each catalog callable, read off its `def` line
(kernel.py lines 58–142). -/
def pySignature : PyFun → List PyParam
  | .android_tap =>
      [⟨"x", false, false⟩, ⟨"y", false, false⟩]
  | .android_type =>
      [⟨"text", false, false⟩, ⟨"x", true, true⟩, ⟨"y", true, true⟩]
  | .android_home => []
  | .android_back => []
  | .android_wait => [⟨"seconds", true, false⟩]
  | .host_read_file => [⟨"filepath", false, false⟩]
  | .host_write_file =>
      [⟨"filepath", false, false⟩, ⟨"content", false, false⟩]
  | .host_run_command => [⟨"command", false, false⟩]
  | .host_list_directory => [⟨"directory", true, false⟩]
  | .task_complete => [⟨"summary", false, false⟩]

/-- The required-parameter list a schema exposes (a missing `"required"`
key reads as the empty set). -/
def requiredOf (s : ToolSchema) : List String :=
  s.required.getD []

/-- The schema registered under a given name, if any. -/
def schemaFor (n : String) : Option ToolSchema :=
  FUNCTIONS.find? (fun s => s.name == n)

/-- For one `FUNCTION_MAP` entry: the schema of the same name exists and
its required set equals (as a set) the callable's parameters that have no
default and are not `Optional`-typed. -/
def schemaRequiredMatches (p : String × PyFun) : Bool :=
  match schemaFor p.1 with
  | some s =>
      let req := requiredOf s
      let sigReq := ((pySignature p.2).filter
        (fun q => !q.hasDefault && !q.isOptional)).map PyParam.name
      req.all (fun n => sigReq.contains n) && sigReq.all (fun n => req.contains n)
  | none => false

/-! ## The tool surface the specification declares

For the refinement comparison of the registry against the specification's
declared tool-invocation surface, the following definitions transcribe the
SPEC's list (its §6 "Tool invocation surface"), not the code. -/

/-- One parameter as the spec's surface list writes it: its name, whether
it is mandatory (`x?` and a parameter with a default are not), and its
declared default value if any. -/
structure SpecParam where
  name : String
  required : Bool
  default : Option JsonDefault := none
deriving DecidableEq, Repr

/-- One tool of the spec's declared surface. -/
structure SpecTool where
  name : String
  params : List SpecParam
deriving DecidableEq, Repr

/-- The spec's declared tool-invocation surface: `android_tap(x, y)`,
`android_type(text, x?, y?)`, `android_home()`, `android_back()`,
`android_swipe(x1, y1, x2, y2, duration_ms=300)`, `android_wait(seconds=2.0)`,
`host_read_file(filepath)`, `host_write_file(filepath, content)`,
`host_run_command(command)`, `host_list_directory(directory=".")`,
`task_complete(summary)`. -/
def specToolSurface : List SpecTool :=
  [ ⟨"android_tap", [⟨"x", true, none⟩, ⟨"y", true, none⟩]⟩,
    ⟨"android_type",
      [⟨"text", true, none⟩, ⟨"x", false, none⟩, ⟨"y", false, none⟩]⟩,
    ⟨"android_home", []⟩,
    ⟨"android_back", []⟩,
    ⟨"android_swipe",
      [⟨"x1", true, none⟩, ⟨"y1", true, none⟩, ⟨"x2", true, none⟩,
       ⟨"y2", true, none⟩, ⟨"duration_ms", false, some (JsonDefault.num 300)⟩]⟩,
    ⟨"android_wait", [⟨"seconds", false, some (JsonDefault.num 2)⟩]⟩,
    ⟨"host_read_file", [⟨"filepath", true, none⟩]⟩,
    ⟨"host_write_file", [⟨"filepath", true, none⟩, ⟨"content", true, none⟩]⟩,
    ⟨"host_run_command", [⟨"command", true, none⟩]⟩,
    ⟨"host_list_directory",
      [⟨"directory", false, some (JsonDefault.str ".")⟩]⟩,
    ⟨"task_complete", [⟨"summary", true, none⟩]⟩ ]

/-- Whether the registry (schema list and dispatch map) carries a tool of
the given spec surface entry's name whose parameter names, required status
and default values are exactly the listed ones. -/
def registryMatches (t : SpecTool) : Bool :=
  match schemaFor t.name with
  | none => false
  | some s =>
      (FUNCTION_MAP.map Prod.fst).contains t.name &&
      t.params.all (fun p =>
        match s.properties.find? (fun q => q.name == p.name) with
        | some q =>
            (q.default == p.default) &&
            ((requiredOf s).contains p.name == p.required)
        | none => false) &&
      s.properties.all (fun q => t.params.any (fun p => p.name == q.name)) &&
      (requiredOf s).all (fun n => t.params.any (fun p => p.name == n && p.required))

/-- The spec surface without `android_swipe`. -/
def specSurfaceImplemented : List SpecTool :=
  specToolSurface.filter (fun t => t.name != "android_swipe")

/-! ## The action catalog

Each action of kernel.py (lines 58–142) is embedded with its effectful
collaborators as explicit oracle parameters.  A `Transport` models
`run_adb_command`: it receives the adb argument list and either returns the
captured stdout (`Except.ok`) or raises (`Except.error`); the stderr
logging inside `run_adb_command` is advisory printing and is dropped.
Filesystem and subprocess oracles are modelled the same way.  An action
whose Lean value is `Except.error msg` is an action that raised. -/

abbrev Transport := List String → Except String String

/-- `android_tap` (lines 58–62): issue the tap, then report.  A transport
failure propagates (the source has no try/except here). -/
def android_tap (transport : Transport) (x y : Int) : Except String String :=
  match transport ["shell", "input", "tap", toString x, toString y] with
  | Except.error e => Except.error e
  | Except.ok _ =>
      Except.ok ("Tapped at (" ++ toString x ++ ", " ++ toString y ++ ")")

/-- `android_type` (lines 65–75): when both coordinates are given, first a
focusing tap; then the escaped text is sent; the returned status quotes the
unescaped text.  Transport failures propagate. -/
def android_type (transport : Transport) (text : String) (x y : Option Int) :
    Except String String :=
  match
    (match x, y with
     | some xv, some yv =>
         transport ["shell", "input", "tap", toString xv, toString yv]
     | _, _ => Except.ok "") with
  | Except.error e => Except.error e
  | Except.ok _ =>
      match transport
          ["shell", "input", "text", String.mk (escape_text_for_adb text.data)] with
      | Except.error e => Except.error e
      | Except.ok _ => Except.ok ("Typed: " ++ text)

/-- `android_home` (lines 78–82). -/
def android_home (transport : Transport) : Except String String :=
  match transport ["shell", "input", "keyevent", "KEYCODE_HOME"] with
  | Except.error e => Except.error e
  | Except.ok _ => Except.ok "Navigated to home screen"

/-- `android_back` (lines 85–89). -/
def android_back (transport : Transport) : Except String String :=
  match transport ["shell", "input", "keyevent", "KEYCODE_BACK"] with
  | Except.error e => Except.error e
  | Except.ok _ => Except.ok "Went back"

/-- `android_wait` (lines 92–95): `time.sleep` may raise (e.g. for a
negative argument) and the source does not catch that. -/
def android_wait (sleep : ℚ → Except String Unit) (seconds : ℚ) :
    Except String String :=
  match sleep seconds with
  | Except.error e => Except.error e
  | Except.ok _ => Except.ok ("Waited " ++ toString seconds ++ " seconds")

/-- `host_read_file` (lines 99–105): the whole body is inside
`try/except`, so a read failure is rendered into the returned string. -/
def host_read_file (readFile : String → Except String String)
    (filepath : String) : Except String String :=
  match readFile filepath with
  | Except.ok content => Except.ok ("File content:\n" ++ content)
  | Except.error e => Except.ok ("Error reading file: " ++ e)

/-- `host_write_file` (lines 108–114). -/
def host_write_file (writeFile : String → String → Except String Unit)
    (filepath content : String) : Except String String :=
  match writeFile filepath content with
  | Except.ok _ =>
      Except.ok ("Wrote " ++ toString content.length ++ " characters to " ++ filepath)
  | Except.error e => Except.ok ("Error writing file: " ++ e)

/-- The wall-clock bound passed to `subprocess.run` in `host_run_command`
(kernel.py line 120). -/
def commandTimeoutSeconds : Nat := 30

/-- How one `subprocess.run(command, shell=True, ..., timeout=30)` call can
end: normal completion with captured stdout/stderr, a `TimeoutExpired`, or
some other raised exception. -/
inductive SubprocOutcome
  | finished (stdout stderr : String)
  | timedOut
  | raised (msg : String)
deriving DecidableEq, Repr

/-- `host_run_command` (lines 117–129): stdout is stripped, nonempty stderr
is appended, an empty combined output is replaced by a fixed message;
`TimeoutExpired` and every other exception are caught and rendered. -/
def host_run_command (subproc : String → SubprocOutcome) (command : String) :
    Except String String :=
  match subproc command with
  | SubprocOutcome.finished stdout stderr =>
      let output := stdout.trim
      let output := if stderr ≠ "" then output ++ "\nStderr: " ++ stderr.trim else output
      Except.ok (if output = "" then "Command executed (no output)" else output)
  | SubprocOutcome.timedOut =>
      Except.ok ("Error: Command timed out after " ++
        toString commandTimeoutSeconds ++ " seconds")
  | SubprocOutcome.raised e => Except.ok ("Error running command: " ++ e)

/-- `host_list_directory` (lines 132–137). -/
def host_list_directory (listDir : String → Except String (List String))
    (directory : String) : Except String String :=
  match listDir directory with
  | Except.ok items =>
      Except.ok ("Directory contents:\n" ++ String.intercalate "\n" items)
  | Except.error e => Except.ok ("Error listing directory: " ++ e)

/-- `task_complete` (lines 140–142): prints and returns the distinguished
completion marker. -/
def task_complete (summary : String) : Except String String :=
  Except.ok "TASK_COMPLETE"

/-! ## The agent loop

`run_agent` (kernel.py lines 318–385).  The three effectful collaborators
are oracle fields of `AgentEnv`: perception (`get_screen_state`, a function
of the iteration index), the reasoning service (a function of the
transcript returning assistant text and tool calls), and `invoke`, which
models `FUNCTION_MAP[name](**args)` running against the world —
`Except.error e` is a raised exception with message `e`, covering both
malformed arguments and failures inside the callable. -/

/-- A parsed tool invocation request: identifier, tool name, and the parsed
keyword arguments (values kept as raw JSON text). -/
structure ToolCall where
  id : String
  name : String
  args : List (String × String)
deriving DecidableEq, Repr

/-- One transcript entry, tagged with its role as in the source's
`messages` list. -/
inductive Message
  | system (content : String)
  | user (content : String)
  | assistant (content : Option String) (tool_calls : List ToolCall)
  | tool (tool_call_id : String) (content : String)
deriving DecidableEq, Repr

/-- The effectful collaborators of one run. -/
structure AgentEnv where
  perceive : Nat → String
  llm : List Message → Option String × List ToolCall
  invoke : String → List (String × String) → Except String String

/-- The screen-observation turn appended at the start of iteration
`iter` (lines 332–338). -/
def screenTurn (env : AgentEnv) (iter : Nat) : Message :=
  Message.user ("Current screen state:\n" ++ env.perceive iter)

/-- Lines 361–367: resolve the requested name in `FUNCTION_MAP`; an
unknown name yields the fixed error string without consulting the catalog;
for a known name the callable is invoked and a raised exception is caught
and rendered as `"Error: <message>"`. -/
def dispatchCall (env : AgentEnv) (c : ToolCall) : String :=
  if !((FUNCTION_MAP.map Prod.fst).contains c.name) then
    "Error: Unknown function " ++ c.name
  else
    match env.invoke c.name c.args with
    | Except.ok r => r
    | Except.error e => "Error: " ++ e

/-- Lines 355–381: process the reply's tool calls in order.  Returns
`(true, ms)` when a dispatch result equals the completion marker (the
source `return`s there, appending nothing further), else `(false, ms')`
with one tool-result turn appended per call. -/
def processCalls (env : AgentEnv) : List ToolCall → List Message → Bool × List Message
  | [], ms => (false, ms)
  | c :: rest, ms =>
      let result := dispatchCall env c
      if result = "TASK_COMPLETE" then (true, ms)
      else processCalls env rest (ms ++ [Message.tool c.id result])

/-- Terminal status of a run: the early `return` after the completion
marker (`done`) or falling off the iteration loop (`exhausted`). -/
inductive RunStatus
  | done
  | exhausted
deriving DecidableEq, Repr

/-- The `for iteration in range(max_iterations)` loop (lines 329–383),
by recursion on the remaining iteration budget; `iter` is the number of
iterations already performed. -/
def runIters (env : AgentEnv) : Nat → Nat → List Message → RunStatus × List Message
  | 0, _, ms => (RunStatus.exhausted, ms)
  | fuel + 1, iter, ms =>
      let m1 := ms ++ [screenTurn env iter]
      let reply := env.llm m1
      let m2 := m1 ++ [Message.assistant reply.1 reply.2]
      if reply.2.isEmpty then
        runIters env fuel (iter + 1) m2
      else
        let pr := processCalls env reply.2 m2
        if pr.1 then (RunStatus.done, pr.2)
        else runIters env fuel (iter + 1) pr.2

/-- The transcript `run_agent` seeds before its loop (lines 324–327). -/
def seedMessages (systemPrompt goal : String) : List Message :=
  [Message.system systemPrompt, Message.user ("GOAL: " ++ goal)]

/-- `run_agent` (lines 318–385), returning the terminal status and the
final transcript. -/
def run_agent (env : AgentEnv) (systemPrompt goal : String)
    (max_iterations : Nat) : RunStatus × List Message :=
  runIters env max_iterations 0 (seedMessages systemPrompt goal)

/-- The number of assistant turns in a transcript: one per perceive/reason
cycle performed. -/
def countAssistant : List Message → Nat
  | [] => 0
  | Message.assistant _ _ :: rest => countAssistant rest + 1
  | _ :: rest => countAssistant rest

/-! ## Concrete collaborator environments for evaluations -/

/-- A run whose reasoning collaborator immediately requests
`task_complete`. -/
def envCompleteRun : AgentEnv where
  perceive := fun _ => "screen"
  llm := fun _ => (none, [⟨"call_1", "task_complete", [("summary", "done")]⟩])
  invoke := fun n _ => if n == "task_complete" then Except.ok "TASK_COMPLETE" else Except.ok "ok"

/-- A run whose reasoning collaborator only ever remarks in plain text. -/
def envPlainRun : AgentEnv where
  perceive := fun _ => "screen"
  llm := fun _ => (some "thinking", [])
  invoke := fun _ _ => Except.ok "ok"

/-- A variant environment whose catalog invocations all raise. -/
def envRaisingRun : AgentEnv where
  perceive := fun _ => "screen"
  llm := fun _ => (none, [])
  invoke := fun _ _ => Except.error "boom"

theorem replaceChar_append (pat : Char) (rep : List Char) (a b : List Char) :
    replaceChar pat rep (a ++ b) = replaceChar pat rep a ++ replaceChar pat rep b := by
  simp [replaceChar]

theorem escape_append (a b : List Char) :
    escape_text_for_adb (a ++ b) = escape_text_for_adb a ++ escape_text_for_adb b := by
  simp [escape_text_for_adb, replaceChar_append]

theorem escape_single (c : Char) : escape_text_for_adb [c] = escChar c := by
  by_cases h0 : c = spaceChar
  · subst h0; rfl
  by_cases h1 : c = '&'
  · subst h1; rfl
  by_cases h2 : c = '<'
  · subst h2; rfl
  by_cases h3 : c = '>'
  · subst h3; rfl
  by_cases h4 : c = '|'
  · subst h4; rfl
  by_cases h5 : c = ';'
  · subst h5; rfl
  by_cases h6 : c = '$'
  · subst h6; rfl
  by_cases h7 : c = backtickChar
  · subst h7; rfl
  by_cases h8 : c = '('
  · subst h8; rfl
  by_cases h9 : c = ')'
  · subst h9; rfl
  by_cases h10 : c = singleQuoteChar
  · subst h10; rfl
  by_cases h11 : c = doubleQuoteChar
  · subst h11; rfl
  have hmem : c ∉ metaChars := by
    simp [metaChars, h1, h2, h3, h4, h5, h6, h7, h8, h9, h10, h11]
  simp [escape_text_for_adb, replaceChar, escChar,
        h0, h1, h2, h3, h4, h5, h6, h7, h8, h9, h10, h11, hmem]

theorem escape_cons (c : Char) (s : List Char) :
    escape_text_for_adb (c :: s) = escChar c ++ escape_text_for_adb s := by
  have h := escape_append [c] s
  simpa [escape_single] using h

theorem noUnescaped_cons_ok (c : Char) (t : List Char) (h : okChar c = true)
    (hb : c ≠ backslashChar) :
    noUnescaped (c :: t) = noUnescaped t := by
  have hc : (c == backslashChar) = false := by simpa using hb
  cases t with
  | nil => simp [noUnescaped, hc, h]
  | cons d rest => simp [noUnescaped, hc, h]

theorem noUnescaped_backslash_pair (x : Char) (t : List Char) :
    noUnescaped (backslashChar :: x :: t) = noUnescaped t := by
  simp [noUnescaped]

theorem escape_eq_flatMap (s : List Char) :
    escape_text_for_adb s = s.flatMap escChar := by
  induction s with
  | nil => rfl
  | cons c t ih => rw [escape_cons, List.flatMap_cons, ih]

theorem escape_noUnescaped (s : List Char) (h : backslashChar ∉ s) :
    noUnescaped (escape_text_for_adb s) = true := by
  induction s with
  | nil => rfl
  | cons c t ih =>
      have hc : c ≠ backslashChar := fun hcc => h (hcc ▸ List.mem_cons_self c t)
      have ht : backslashChar ∉ t := fun hm => h (List.mem_cons_of_mem _ hm)
      have iht := ih ht
      rw [escape_cons]
      generalize hX : escape_text_for_adb t = X at iht ⊢
      by_cases h0 : c = spaceChar
      · subst h0
        have he : escChar spaceChar = [percentChar, 's'] := rfl
        rw [he]
        show noUnescaped (percentChar :: 's' :: X) = true
        rw [noUnescaped_cons_ok percentChar _ (by decide) (by decide),
            noUnescaped_cons_ok 's' _ (by decide) (by decide)]
        exact iht
      · by_cases h1 : metaChars.contains c
        · have h1m : c ∈ metaChars := by simpa using h1
          have he : escChar c = [backslashChar, c] := by simp [escChar, h0, h1m]
          rw [he]
          show noUnescaped (backslashChar :: c :: X) = true
          rw [noUnescaped_backslash_pair]
          exact iht
        · have h1m : c ∉ metaChars := by simpa using h1
          have hok : okChar c = true := by simp [okChar, h1m, h0]
          have he : escChar c = [c] := by simp [escChar, h0, h1m]
          rw [he]
          show noUnescaped (c :: X) = true
          rw [noUnescaped_cons_ok c _ hok hc]
          exact iht

theorem prefix_ne_of_length_lt (pre s t : String) (h : t.length < pre.length) :
    pre ++ s ≠ t := by
  intro he
  have hl := congrArg String.length he
  rw [String.length_append] at hl
  omega

theorem errorUnknown_ne_marker (s : String) :
    "Error: Unknown function " ++ s ≠ "TASK_COMPLETE" :=
  prefix_ne_of_length_lt _ s _ (by decide)

theorem countAssistant_append (a b : List Message) :
    countAssistant (a ++ b) = countAssistant a + countAssistant b := by
  induction a with
  | nil => simp [countAssistant]
  | cons m rest ih =>
      cases m <;> simp [countAssistant, ih] <;> omega

theorem processCalls_no_complete (env : AgentEnv)
    (h : ∀ c, dispatchCall env c ≠ "TASK_COMPLETE") :
    ∀ calls ms, (processCalls env calls ms).1 = false ∧
      countAssistant (processCalls env calls ms).2 = countAssistant ms := by
  intro calls
  induction calls with
  | nil => intro ms; exact ⟨rfl, rfl⟩
  | cons c rest ih =>
      intro ms
      have hstep : processCalls env (c :: rest) ms =
          processCalls env rest (ms ++ [Message.tool c.id (dispatchCall env c)]) := by
        simp only [processCalls, if_neg (h c)]
      rw [hstep]
      rcases ih (ms ++ [Message.tool c.id (dispatchCall env c)]) with ⟨h1, h2⟩
      refine ⟨h1, ?_⟩
      rw [h2, countAssistant_append]
      simp [countAssistant]

theorem runIters_succ (env : AgentEnv) (n iter : Nat) (ms : List Message) :
    runIters env (n + 1) iter ms =
      (let m1 := ms ++ [screenTurn env iter]
       let reply := env.llm m1
       let m2 := m1 ++ [Message.assistant reply.1 reply.2]
       if reply.2.isEmpty then runIters env n (iter + 1) m2
       else
         let pr := processCalls env reply.2 m2
         if pr.1 then (RunStatus.done, pr.2)
         else runIters env n (iter + 1) pr.2) := rfl

theorem runIters_exhausts (env : AgentEnv)
    (h : ∀ c, dispatchCall env c ≠ "TASK_COMPLETE") :
    ∀ fuel iter ms, (runIters env fuel iter ms).1 = RunStatus.exhausted ∧
      countAssistant (runIters env fuel iter ms).2 = countAssistant ms + fuel := by
  intro fuel
  induction fuel with
  | zero => intro iter ms; exact ⟨rfl, by simp [runIters]⟩
  | succ n ih =>
      intro iter ms
      rw [runIters_succ]
      have hm2 : countAssistant (ms ++ [screenTurn env iter] ++
          [Message.assistant (env.llm (ms ++ [screenTurn env iter])).1
            (env.llm (ms ++ [screenTurn env iter])).2]) = countAssistant ms + 1 := by
        rw [countAssistant_append, countAssistant_append]
        simp [countAssistant, screenTurn]
      simp only []
      split
      · rcases ih (iter + 1) (ms ++ [screenTurn env iter] ++
            [Message.assistant (env.llm (ms ++ [screenTurn env iter])).1
              (env.llm (ms ++ [screenTurn env iter])).2]) with ⟨h1, h2⟩
        exact ⟨h1, by rw [h2, hm2]; omega⟩
      · rcases processCalls_no_complete env h
            (env.llm (ms ++ [screenTurn env iter])).2
            (ms ++ [screenTurn env iter] ++
              [Message.assistant (env.llm (ms ++ [screenTurn env iter])).1
                (env.llm (ms ++ [screenTurn env iter])).2]) with ⟨hp1, hp2⟩
        rw [if_neg (by rw [hp1]; exact Bool.false_ne_true)]
        rcases ih (iter + 1) (processCalls env
            (env.llm (ms ++ [screenTurn env iter])).2
            (ms ++ [screenTurn env iter] ++
              [Message.assistant (env.llm (ms ++ [screenTurn env iter])).1
                (env.llm (ms ++ [screenTurn env iter])).2])).2 with ⟨h1, h2⟩
        refine ⟨h1, ?_⟩
        rw [h2, hp2, hm2]
        omega

theorem envPlainRun_never_completes :
    ∀ c, dispatchCall envPlainRun c ≠ "TASK_COMPLETE" := by
  intro c
  unfold dispatchCall
  split
  · exact errorUnknown_ne_marker c.name
  · exact (by decide : ("ok" : String) ≠ "TASK_COMPLETE")

/-! ## Claims -/

/-- C1 (counterexample): the spec's declared tool surface lists
`android_swipe(x1, y1, x2, y2, duration_ms=300)`, but the registry has no
tool of that name — neither the schema list `FUNCTIONS` nor the dispatch
map `FUNCTION_MAP` contains an `android_swipe` entry, so the registry does
not match the spec's list exactly. -/
theorem C1_counterexample :
    specToolSurface.any (fun t => t.name == "android_swipe") = true ∧
    schemaFor "android_swipe" = none ∧
    (FUNCTION_MAP.map Prod.fst).contains "android_swipe" = false := by
  decide

/-- C1 (amended): for each tool of the spec's declared surface EXCEPT
`android_swipe`, the registry contains a tool of that name whose parameter
names, required status and default values are exactly those listed, and
the registry contains no tools beyond those ten. -/
theorem C1_registry_matches_surface :
    specSurfaceImplemented.all registryMatches = true ∧
    FUNCTIONS.map ToolSchema.name = specSurfaceImplemented.map SpecTool.name ∧
    FUNCTION_MAP.map Prod.fst = specSurfaceImplemented.map SpecTool.name := by
  decide

/-- C2 (counterexample): `android_tap` does not catch failures of its own
I/O at the action boundary: when the adb transport raises (e.g. the adb
binary is missing), the exception propagates out of the action instead of
being rendered into the returned string. -/
theorem C2_counterexample :
    android_tap (fun _ => Except.error "No such file or directory: adb") 100 200 =
      Except.error "No such file or directory: adb" := rfl

/-- C2 (amended): the host actions and `task_complete` catch their own
I/O failures at the action boundary and always return a status string;
the device actions return a status string whenever their underlying
transport (or sleep) calls succeed, but propagate an exception those calls
raise, which is then contained at the dispatcher instead of the action
boundary. -/
theorem C2_actions_contained :
    (∀ rf fp, (host_read_file rf fp).isOk = true) ∧
    (∀ wf fp content, (host_write_file wf fp content).isOk = true) ∧
    (∀ sp cmd, (host_run_command sp cmd).isOk = true) ∧
    (∀ ld d, (host_list_directory ld d).isOk = true) ∧
    (∀ s, (task_complete s).isOk = true) ∧
    (∀ t x y, (∀ cmd, (t cmd).isOk = true) → (android_tap t x y).isOk = true) ∧
    (∀ t text x y, (∀ cmd, (t cmd).isOk = true) →
      (android_type t text x y).isOk = true) ∧
    (∀ t, (∀ cmd, (t cmd).isOk = true) → (android_home t).isOk = true) ∧
    (∀ t, (∀ cmd, (t cmd).isOk = true) → (android_back t).isOk = true) ∧
    (∀ sl secs, (sl secs).isOk = true → (android_wait sl secs).isOk = true) := by
  refine ⟨?_, ?_, ?_, ?_, ?_, ?_, ?_, ?_, ?_, ?_⟩
  · intro rf fp
    cases h : rf fp <;> simp [host_read_file, h, Except.isOk, Except.toBool]
  · intro wf fp content
    cases h : wf fp content <;> simp [host_write_file, h, Except.isOk, Except.toBool]
  · intro sp cmd
    cases h : sp cmd <;> simp [host_run_command, h, Except.isOk, Except.toBool]
  · intro ld d
    cases h : ld d <;> simp [host_list_directory, h, Except.isOk, Except.toBool]
  · intro s
    rfl
  · intro t x y ht
    have h1 := ht ["shell", "input", "tap", toString x, toString y]
    cases h : t ["shell", "input", "tap", toString x, toString y] with
    | error e => rw [h] at h1; simp [Except.isOk, Except.toBool] at h1
    | ok out => simp [android_tap, h, Except.isOk, Except.toBool]
  · intro t text x y ht
    have htext := ht ["shell", "input", "text",
      String.mk (escape_text_for_adb text.data)]
    cases h2 : t ["shell", "input", "text",
        String.mk (escape_text_for_adb text.data)] with
    | error e => rw [h2] at htext; simp [Except.isOk, Except.toBool] at htext
    | ok out =>
        cases x with
        | none => cases y <;> simp [android_type, h2, Except.isOk, Except.toBool]
        | some xv =>
            cases y with
            | none => simp [android_type, h2, Except.isOk, Except.toBool]
            | some yv =>
                have htap := ht ["shell", "input", "tap", toString xv, toString yv]
                cases h1 : t ["shell", "input", "tap", toString xv, toString yv] with
                | error e => rw [h1] at htap; simp [Except.isOk, Except.toBool] at htap
                | ok o1 => simp [android_type, h1, h2, Except.isOk, Except.toBool]
  · intro t ht
    have h1 := ht ["shell", "input", "keyevent", "KEYCODE_HOME"]
    cases h : t ["shell", "input", "keyevent", "KEYCODE_HOME"] with
    | error e => rw [h] at h1; simp [Except.isOk, Except.toBool] at h1
    | ok out => simp [android_home, h, Except.isOk, Except.toBool]
  · intro t ht
    have h1 := ht ["shell", "input", "keyevent", "KEYCODE_BACK"]
    cases h : t ["shell", "input", "keyevent", "KEYCODE_BACK"] with
    | error e => rw [h] at h1; simp [Except.isOk, Except.toBool] at h1
    | ok out => simp [android_back, h, Except.isOk, Except.toBool]
  · intro sl secs h1
    cases h : sl secs with
    | error e => rw [h] at h1; simp [Except.isOk, Except.toBool] at h1
    | ok u => simp [android_wait, h, Except.isOk, Except.toBool]

/-- C2 (witness): instances of the amended claim at concrete inputs — a
failing read is rendered into an `ok` status string, and a tap over a
succeeding transport returns an `ok` status string. -/
theorem C2_actions_contained_witness :
    (host_read_file (fun _ => Except.error "boom") "notes.txt").isOk = true ∧
    (android_tap (fun _ => Except.ok "") 100 200).isOk = true :=
  ⟨C2_actions_contained.1 (fun _ => Except.error "boom") "notes.txt",
   C2_actions_contained.2.2.2.2.2.1 (fun _ => Except.ok "") 100 200
     (fun _ => rfl)⟩

/-- C3 (counterexample): the escaper is not lossless — the space is
substituted by `%s`, which collides with a literal `%s` input, so two
distinct inputs over the supported character set produce the same escaped
output. -/
theorem C3_counterexample :
    escape_text_for_adb [spaceChar] = escape_text_for_adb [percentChar, 's'] ∧
    [spaceChar] ≠ [percentChar, 's'] := by
  decide

/-- C3 (amended): the escaper acts deterministically and independently on
each character (space → `%s`, each supported metacharacter gets a
backslash put before it, everything else is kept), and for every input
without a backslash the escaped output contains no unescaped occurrence of
any supported metacharacter and no space at all; but it is not lossless,
since escaping a space collides with escaping a literal `%s`. -/
theorem C3_escape_sound (s : List Char) (h : backslashChar ∉ s) :
    escape_text_for_adb s = s.flatMap escChar ∧
    noUnescaped (escape_text_for_adb s) = true :=
  ⟨escape_eq_flatMap s, escape_noUnescaped s h⟩

/-- C3 (witness): the amended claim at the spec's example input
`"it's & <tag>"`: its escaped form has no unescaped `&`, `<`, `'` (nor any
other supported metacharacter or space). -/
theorem C3_escape_sound_witness :
    escape_text_for_adb ("it's & <tag>".data) =
      ("it's & <tag>".data).flatMap escChar ∧
    noUnescaped (escape_text_for_adb ("it's & <tag>".data)) = true :=
  C3_escape_sound ("it's & <tag>".data) (by decide)

/-- C4: when a dispatched call's result equals the completion marker
`"TASK_COMPLETE"`, the loop ends the run in state `done` on that same
iteration regardless of remaining budget: no tool-result turn is appended
for that invocation, no later request of the reply is dispatched, and the
final transcript stops at the assistant turn; in particular
`task_complete` always returns the marker, and dispatching a
`task_complete` request whose invocation returns the marker yields the
marker. -/
theorem C4_completion_terminates (env : AgentEnv) (c : ToolCall)
    (rest : List ToolCall) (content : Option String)
    (h : dispatchCall env c = "TASK_COMPLETE") :
    (∀ ms, processCalls env (c :: rest) ms = (true, ms)) ∧
    (∀ fuel iter ms,
        env.llm (ms ++ [screenTurn env iter]) = (content, c :: rest) →
        runIters env (fuel + 1) iter ms =
          (RunStatus.done,
           ms ++ [screenTurn env iter, Message.assistant content (c :: rest)])) ∧
    (∀ s, task_complete s = Except.ok "TASK_COMPLETE") ∧
    (∀ env2 : AgentEnv, ∀ cid args,
        env2.invoke "task_complete" args = Except.ok "TASK_COMPLETE" →
        dispatchCall env2 ⟨cid, "task_complete", args⟩ = "TASK_COMPLETE") := by
  have hpc : ∀ ms, processCalls env (c :: rest) ms = (true, ms) := by
    intro ms
    simp [processCalls, h]
  refine ⟨hpc, ?_, ?_, ?_⟩
  · intro fuel iter ms hllm
    rw [runIters_succ]
    simp only [hllm, List.isEmpty_cons, hpc, List.append_assoc]
    rfl
  · intro s
    rfl
  · intro env2 cid args hinv
    have hred : dispatchCall env2 ⟨cid, "task_complete", args⟩ =
        match env2.invoke "task_complete" args with
        | Except.ok r => r
        | Except.error e => "Error: " ++ e := rfl
    rw [hred, hinv]

/-- C4 (witness): a run whose reasoning collaborator requests
`task_complete` on the first iteration ends in `done` with budget 5 left,
appending no tool-result turn. -/
theorem C4_completion_terminates_witness :
    processCalls envCompleteRun
      [⟨"call_1", "task_complete", [("summary", "done")]⟩] [] = (true, []) ∧
    runIters envCompleteRun (4 + 1) 0 [] =
      (RunStatus.done,
       [] ++ [screenTurn envCompleteRun 0,
         Message.assistant none [⟨"call_1", "task_complete", [("summary", "done")]⟩]]) :=
  ⟨(C4_completion_terminates envCompleteRun
      ⟨"call_1", "task_complete", [("summary", "done")]⟩ [] none (by decide)).1 [],
   (C4_completion_terminates envCompleteRun
      ⟨"call_1", "task_complete", [("summary", "done")]⟩ [] none (by decide)).2.1
     4 0 [] rfl⟩

/-- C5: dispatching a request whose tool name is not in `FUNCTION_MAP`
yields exactly `"Error: Unknown function <name>"`, and the result does not
depend on the catalog invocations at all (no action is invoked: any two
environments give the same result). -/
theorem C5_unknown_function (env env2 : AgentEnv) (c : ToolCall)
    (h : (FUNCTION_MAP.map Prod.fst).contains c.name = false) :
    dispatchCall env c = "Error: Unknown function " ++ c.name ∧
    dispatchCall env c = dispatchCall env2 c := by
  have hcond : (!((FUNCTION_MAP.map Prod.fst).contains c.name)) = true := by
    rw [h]; rfl
  have hred : ∀ env3 : AgentEnv,
      dispatchCall env3 c = "Error: Unknown function " ++ c.name := by
    intro env3
    unfold dispatchCall
    rw [if_pos hcond]
  exact ⟨hred env, by rw [hred env, hred env2]⟩

/-- C5 (witness): the unknown name `frobnicate`, dispatched under two
environments with different catalogs. -/
theorem C5_unknown_function_witness :
    dispatchCall envPlainRun ⟨"call_9", "frobnicate", []⟩ =
      "Error: Unknown function " ++ "frobnicate" ∧
    dispatchCall envPlainRun ⟨"call_9", "frobnicate", []⟩ =
      dispatchCall envRaisingRun ⟨"call_9", "frobnicate", []⟩ :=
  C5_unknown_function envPlainRun envRaisingRun
    ⟨"call_9", "frobnicate", []⟩ (by decide)

/-- C6: for a request whose name is registered, an exception raised while
invoking the bound callable is caught by the dispatcher and rendered as
`"Error: <message>"` (the dispatcher is a total function into strings, so
nothing propagates to the loop). -/
theorem C6_exception_rendered (env : AgentEnv) (c : ToolCall) (e : String)
    (hk : (FUNCTION_MAP.map Prod.fst).contains c.name = true)
    (he : env.invoke c.name c.args = Except.error e) :
    dispatchCall env c = "Error: " ++ e := by
  have hcond : (!((FUNCTION_MAP.map Prod.fst).contains c.name)) = false := by
    rw [hk]; rfl
  unfold dispatchCall
  rw [if_neg (fun hcontra => Bool.false_ne_true (hcond ▸ hcontra)), he]

/-- C6 (witness): a registered name whose invocation raises `boom` is
rendered as `"Error: boom"`. -/
theorem C6_exception_rendered_witness :
    dispatchCall envRaisingRun ⟨"call_2", "android_tap", []⟩ =
      "Error: " ++ "boom" :=
  C6_exception_rendered envRaisingRun ⟨"call_2", "android_tap", []⟩ "boom"
    (by decide) rfl

/-- C7: if no dispatch ever yields the completion marker, a run performs
exactly `max_iterations` perceive/reason cycles (one assistant turn per
cycle) and terminates exhausted; with budget 1 and a reply carrying no
tool calls, the run stops after exactly one cycle with no tool dispatched
and no tool turn appended. -/
theorem C7_budget_exhaustion (env : AgentEnv)
    (h : ∀ c, dispatchCall env c ≠ "TASK_COMPLETE") :
    (∀ systemPrompt goal n,
        (run_agent env systemPrompt goal n).1 = RunStatus.exhausted ∧
        countAssistant (run_agent env systemPrompt goal n).2 = n) ∧
    (∀ systemPrompt goal content,
        env.llm (seedMessages systemPrompt goal ++ [screenTurn env 0]) =
          (content, []) →
        run_agent env systemPrompt goal 1 =
          (RunStatus.exhausted,
           seedMessages systemPrompt goal ++
             [screenTurn env 0, Message.assistant content []])) := by
  constructor
  · intro systemPrompt goal n
    rcases runIters_exhausts env h n 0 (seedMessages systemPrompt goal) with ⟨h1, h2⟩
    refine ⟨h1, ?_⟩
    rw [run_agent, h2]
    simp [seedMessages, countAssistant]
  · intro systemPrompt goal content hllm
    rw [run_agent, runIters_succ]
    simp only [hllm, List.isEmpty_nil, if_pos, List.append_assoc]
    rfl

/-- C7 (witness): budget 1 with a collaborator that only remarks in plain
text: exactly one cycle, state exhausted, no tool turn. -/
theorem C7_budget_exhaustion_witness :
    ((run_agent envPlainRun "sys" "tap settings" 1).1 = RunStatus.exhausted ∧
     countAssistant (run_agent envPlainRun "sys" "tap settings" 1).2 = 1) ∧
    run_agent envPlainRun "sys" "tap settings" 1 =
      (RunStatus.exhausted,
       seedMessages "sys" "tap settings" ++
         [screenTurn envPlainRun 0, Message.assistant (some "thinking") []]) :=
  ⟨(C7_budget_exhaustion envPlainRun envPlainRun_never_completes).1
      "sys" "tap settings" 1,
   (C7_budget_exhaustion envPlainRun envPlainRun_never_completes).2
      "sys" "tap settings" (some "thinking") rfl⟩

/-- C8: for every registered action, the required-parameter set of its
exposed schema equals exactly the set of the callable's parameters that
have no default value and are not `Optional`-typed. -/
theorem C8_required_parameters : ∀ p ∈ FUNCTION_MAP,
    schemaRequiredMatches p = true := by
  decide

/-- C8 (witness): the `android_tap` entry — its schema requires exactly
`x` and `y`. -/
theorem C8_required_parameters_witness :
    schemaRequiredMatches ("android_tap", PyFun.android_tap) = true :=
  C8_required_parameters ("android_tap", PyFun.android_tap) (by decide)

/-- C9: when the subprocess of `host_run_command` hits the hard 30-second
wall-clock bound, the action returns exactly the string
`"Error: Command timed out after 30 seconds"` rather than raising. -/
theorem C9_timeout_message (subproc : String → SubprocOutcome) (command : String)
    (h : subproc command = SubprocOutcome.timedOut) :
    host_run_command subproc command =
      Except.ok "Error: Command timed out after 30 seconds" := by
  unfold host_run_command
  rw [h]
  rfl

/-- C9 (witness): a command whose subprocess times out. -/
theorem C9_timeout_message_witness :
    host_run_command (fun _ => SubprocOutcome.timedOut) "sleep 60" =
      Except.ok "Error: Command timed out after 30 seconds" :=
  C9_timeout_message (fun _ => SubprocOutcome.timedOut) "sleep 60" rfl

/-- C10: a run with iteration budget 0 terminates immediately exhausted:
the final transcript is exactly the seeded system-prompt and goal turns —
no screen observation, no assistant reply, no tool turn — and no tool is
dispatched. -/
theorem C10_zero_budget (env : AgentEnv) (systemPrompt goal : String) :
    run_agent env systemPrompt goal 0 =
      (RunStatus.exhausted, seedMessages systemPrompt goal) := rfl

/-- C10 (witness): budget 0 at a concrete environment. -/
theorem C10_zero_budget_witness :
    run_agent envPlainRun "sys" "tap the settings icon" 0 =
      (RunStatus.exhausted, seedMessages "sys" "tap the settings icon") :=
  C10_zero_budget envPlainRun "sys" "tap the settings icon"

end Kernel


